import Mathlib

/-!
Verification of `src/app.py` of the stock-analysis-assistant repository.

The app is a Streamlit chat UI around a streaming chat-completion API.
This file gives a shallow embedding of its state-relevant code:

* Python `str` is modelled as Lean `String` (a sequence of code points);
  `s[:500]` is `String.take 500`, `len` is `String.length`, f-string
  concatenation is `++`.  For the line-splitting formatter we also work on
  `List Char` (`String.data`), modelling Python `str.split` with a
  one-character separator and `'\n'.join` directly on character lists.
* A streaming response (`client.chat.completions.create(..., stream=True)`)
  is modelled as the finite list of chunks it yields plus a flag saying
  whether pulling the next chunk after those raises a transport exception.
* `st.session_state.should_stop` can be set `True` concurrently by the
  stop-button handler; the handler code only ever *reads* the flag, at
  lines 159, 181 and 201 of `app.py`.  Reads are numbered 0, 1, 2, … in
  program order, and the environment says at which read index the flag
  starts reading `True` (`none` = never): once `True`, always `True`.
* Wall-clock values (timestamps, durations) are opaque inputs of the
  environment; log `timestamp`/`duration` fields are omitted from the
  embedded `LogRecord` since no property depends on them.
-/

/-- One role/content message of the session message list (`app.py`
dictionaries `{"role": ..., "content": ...}`). -/
structure Message where
  role : String
  content : String
deriving DecidableEq, Repr

/-- One record of `st.session_state.history` (`app.py` lines 227-234). -/
structure HistoryRecord where
  timestamp : String
  news : String
  impact_analysis : String
  impact_reasoning : String
  risk_analysis : String
  risk_reasoning : String
deriving DecidableEq, Repr

/-- One structured log line as written by `log_generation`
(`app.py` lines 89-100); wall-clock fields omitted. -/
structure LogRecord where
  step : String
  input : String
  output : String
  reasoning : String
  model : String
  status : String
deriving DecidableEq, Repr

/-- The mutable session state (`st.session_state`, `app.py` lines 33-44). -/
structure SessionState where
  messages : List Message
  is_first_message : Bool
  history : List HistoryRecord
  should_stop : Bool
deriving DecidableEq, Repr

/-- One chunk of a streamed completion.  Python tests the delta fields for
truthiness (`if chunk.choices[0].delta.reasoning_content:`), so `None` and
`""` behave identically; both are modelled as `""`. -/
structure Chunk where
  reasoning_content : String
  content : String
deriving DecidableEq, Repr

/-- One streaming API response: the chunks the iterator yields in order,
and whether pulling the next chunk after those raises an exception
(a creation-time failure is the case `chunks = []`, `raises = true`). -/
structure ApiStream where
  chunks : List Chunk
  raises : Bool
deriving DecidableEq, Repr

/-- Prompt template A (`app.py` lines 54-73), with the `.format`
placeholder kept literally. -/
def prompt_a : String :=
  "\n你是一位专业的金融分析师和A股市场专家。你的任务是分析新闻对A股市场的影响。\n\n当用户提供新闻内容时，请给出以下分析结论：\n\n1. 利好：\n- 利好原因\n- 受益行业\n- 相关A股上市公司\n\n2. 利空：\n- 利空原因\n- 受损行业\n\n注意，如果新闻对A股影响不明显，请直接说明\"影响有限\"。\n\n新闻内容：\n\n{input}\n"

/-- Prompt template B (`app.py` lines 75-83). -/
def prompt_b : String :=
  "\n你是一位资深的风险分析师。现在需要你基于刚才的新闻对前期分析的利好行业和公司进行风险提示。\n\n请从行业、公司及时间（短期和中长期）维度进行风险分析：\n\n注意，保持客观专业，避免过度悲观；风险分析要有针对性，避免泛泛而谈；如果认为某项风险特别重要，请用\"⚠️\"标注\n\n如果前期分析显示\"影响有限\"，则直接回复\"无需进行风险分析\"。\n"

/-- Python `prompt_a.format(input=user_input)` (`app.py` line 145): the
only placeholder in the template is replaced by the news text. -/
def format_prompt_a (user_input : String) : String :=
  prompt_a.replace "{input}" user_input

/-- Truncation applied by `log_generation` to the `input` and `output`
fields (`app.py` lines 92-93): `s[:500] + "..."` when `len(s) > 500`. -/
def truncate500 (s : String) : String :=
  if s.length > 500 then s.take 500 ++ "..." else s

/-- Truncation applied by `log_generation` to the `reasoning` field
(`app.py` line 94): the Python condition is `reasoning and
len(reasoning) > 500`, so the falsy value is passed through. -/
def truncateReasoning (s : String) : String :=
  if s ≠ "" ∧ s.length > 500 then s.take 500 ++ "..." else s

/-- The log record built by `log_generation` (`app.py` lines 86-101).
The Python function serializes this record to the log sink; the embedding
returns the record itself. -/
def log_generation (input_context output reasoning model status step : String) :
    LogRecord :=
  { step := step
    input := truncate500 input_context
    output := truncate500 output
    reasoning := truncateReasoning reasoning
    model := model
    status := status }

/-- Python `s.split('\n')` on the character-list representation
(`app.py` line 110).  Matches CPython semantics for a one-character
separator: `"".split('\n') == [""]`, `"a\n".split('\n') == ["a", ""]`. -/
def pySplitLines : List Char → List (List Char)
  | [] => [[]]
  | c :: cs =>
    if c = '\n' then [] :: pySplitLines cs
    else
      match pySplitLines cs with
      | [] => [[c]]
      | l :: ls => (c :: l) :: ls

/-- Python `'\n'.join(parts)` on the character-list representation
(`app.py` line 112). -/
def pyJoinLines : List (List Char) → List Char
  | [] => []
  | [l] => l
  | l :: l2 :: ls => l ++ '\n' :: pyJoinLines (l2 :: ls)

/-- `format_reasoning_as_quote` (`app.py` lines 106-112): empty (falsy)
input returns `""`; otherwise every `'\n'`-separated line is prefixed
with `"> "` and the lines are re-joined with `'\n'`. -/
def format_reasoning_as_quote (reasoning_text : String) : String :=
  if reasoning_text = "" then ""
  else
    String.mk (pyJoinLines
      ((pySplitLines reasoning_text.data).map (fun line => '>' :: ' ' :: line)))

/-- The lines of a string, in the sense of Python `split('\n')`. -/
def pyLines (s : String) : List String :=
  (pySplitLines s.data).map String.mk

/-- Value read from `st.session_state.should_stop` at read index `k`:
the environment makes the flag become `true` from read `stopAt` on
(`none` = the stop action never happens during the exchange). -/
def stopReads : Option Nat → Nat → Bool
  | none, _ => false
  | some n, k => decide (n ≤ k)

/-- Result of one streaming `for chunk in stream:` loop
(`app.py` lines 158-168, 200-210, 270-280). -/
structure LoopResult where
  reasoning : String
  answer : String
  next_read : Nat
  stopped : Bool
  raised : Bool
deriving DecidableEq, Repr

/-- The streaming loop shared by all three `for chunk in stream:` loops of
`app.py`: pull the next chunk (raising the stream's pending exception when
its chunks are exhausted and `raises` is set), read `should_stop` (read
index `k`) and `break` when it is `true`, otherwise accumulate the chunk's
reasoning delta if truthy, `elif` its content delta if truthy. -/
def stream_loop (stopAt : Option Nat) :
    Nat → List Chunk → Bool → String → String → LoopResult
  | k, [], raises, reasoning, answer =>
    { reasoning := reasoning, answer := answer, next_read := k
      stopped := false, raised := raises }
  | k, c :: rest, raises, reasoning, answer =>
    if stopReads stopAt k then
      { reasoning := reasoning, answer := answer, next_read := k + 1
        stopped := true, raised := false }
    else if c.reasoning_content ≠ "" then
      stream_loop stopAt (k + 1) rest raises (reasoning ++ c.reasoning_content) answer
    else if c.content ≠ "" then
      stream_loop stopAt (k + 1) rest raises reasoning (answer ++ c.content)
    else
      stream_loop stopAt (k + 1) rest raises reasoning answer

/-- The reasoning text a fully-consumed, never-stopped loop accumulates. -/
def accReasoning : List Chunk → String
  | [] => ""
  | c :: rest =>
    (if c.reasoning_content ≠ "" then c.reasoning_content else "") ++ accReasoning rest

/-- The answer text a fully-consumed, never-stopped loop accumulates. -/
def accAnswer : List Chunk → String
  | [] => ""
  | c :: rest =>
    (if c.reasoning_content ≠ "" then ""
     else if c.content ≠ "" then c.content else "") ++ accAnswer rest

/-- Environment of one `handle_first_message` call: whether the inline
stop button reads as pressed at render time (`app.py` lines 139-142), the
schedule of the concurrent stop action, the two streaming responses, and
the wall-clock timestamp string used for the history record. -/
structure Env where
  stopButton : Bool
  stopAt : Option Nat
  stream1 : ApiStream
  stream2 : ApiStream
  timestamp : String
deriving DecidableEq, Repr

/-- Observable outcome of one handler call: the session state after the
call, the log records emitted in order, and whether an exception escaped
the handler (to be caught by the UI shell, `app.py` lines 361-370). -/
structure RunResult where
  state : SessionState
  logs : List LogRecord
  raised : Bool
deriving DecidableEq, Repr

/-- `handle_first_message` (`app.py` lines 128-237).  Notable points kept
from the source, in order:
* line 129 resets `should_stop`; line 130 appends the user `Message`
  before any stop check;
* lines 139-142: a pressed stop button sets `should_stop` and returns
  before any request;
* lines 158-179: the first streaming loop, followed by an
  *unconditional* `log_generation` for step `"impact_analysis"`;
* line 181: `should_stop` is re-read; only when it is `false` does the
  second request run;
* lines 200-234: the second loop, then — with *no* further stop check —
  the `"risk_analysis"` log, the combined assistant `Message`, and the
  `HistoryRecord` are all emitted even if the second loop was stopped;
* line 236 sets `is_first_message = False` on every path reaching it;
* line 237 `return first_result, second_result` raises
  `UnboundLocalError` when the line-181 guard skipped the second block,
  because `second_result` is only assigned inside that block; the error
  escapes to the UI shell (modelled as `raised := true`). -/
def handle_first_message (user_input : String) (s0 : SessionState) (env : Env) :
    RunResult :=
  let s1 : SessionState :=
    { s0 with should_stop := false
              messages := s0.messages ++ [{ role := "user", content := user_input }] }
  if env.stopButton then
    { state := { s1 with should_stop := true }, logs := [], raised := false }
  else
    let formatted_prompt := format_prompt_a user_input
    let r1 := stream_loop env.stopAt 0 env.stream1.chunks env.stream1.raises "" ""
    if r1.raised then
      { state := s1, logs := [], raised := true }
    else
      let log1 := log_generation formatted_prompt r1.answer r1.reasoning
        "deepseek-reasoner" "success" "impact_analysis"
      if stopReads env.stopAt r1.next_read then
        { state := { s1 with is_first_message := false, should_stop := true }
          logs := [log1], raised := true }
      else
        let r2 := stream_loop env.stopAt (r1.next_read + 1)
          env.stream2.chunks env.stream2.raises "" ""
        if r2.raised then
          { state := s1, logs := [log1], raised := true }
        else
          let log2 := log_generation
            (formatted_prompt ++ "\n\n" ++ r1.answer ++ "\n\n" ++ prompt_b)
            r2.answer r2.reasoning "deepseek-reasoner" "success" "risk_analysis"
          let complete_response :=
            "### 📊 利好分析\n\n" ++ r1.answer ++ "\n\n### ⚠️ 风险提示\n\n" ++ r2.answer
          { state :=
              { s1 with
                messages := s1.messages ++
                  [{ role := "assistant", content := complete_response }]
                history := s1.history ++
                  [{ timestamp := env.timestamp
                     news := user_input
                     impact_analysis := r1.answer
                     impact_reasoning := r1.reasoning
                     risk_analysis := r2.answer
                     risk_reasoning := r2.reasoning }]
                is_first_message := false
                should_stop := r2.stopped }
            logs := [log1, log2], raised := false }

/-- Environment of one `handle_regular_message` call. -/
structure RegularEnv where
  stopButton : Bool
  stopAt : Option Nat
  stream : ApiStream
deriving DecidableEq, Repr

/-- `handle_regular_message` (`app.py` lines 240-294): append the user
message, run one streaming loop, log step `"conversation"`, and append
whatever answer text was accumulated (also after a mid-stream stop). -/
def handle_regular_message (user_input : String) (s0 : SessionState)
    (env : RegularEnv) : RunResult :=
  let s1 : SessionState :=
    { s0 with should_stop := false
              messages := s0.messages ++ [{ role := "user", content := user_input }] }
  if env.stopButton then
    { state := { s1 with should_stop := true }, logs := [], raised := false }
  else
    let r := stream_loop env.stopAt 0 env.stream.chunks env.stream.raises "" ""
    if r.raised then
      { state := s1, logs := [], raised := true }
    else
      { state :=
          { s1 with
            messages := s1.messages ++ [{ role := "assistant", content := r.answer }]
            should_stop := r.stopped }
        logs := [log_generation user_input r.answer r.reasoning
          "deepseek-reasoner" "success" "conversation"]
        raised := false }

/-- The new-conversation action of `main` (`app.py` lines 372-375):
clear the message list and reset the first-message flag. -/
def start_new_conversation (s : SessionState) : SessionState :=
  { s with messages := [], is_first_message := true }

/-! ## Basic lemmas about the line splitter and joiner -/

/-- `pySplitLines` never returns the empty list (Python `split` always
yields at least one part). -/
theorem pySplitLines_ne_nil (cs : List Char) : pySplitLines cs ≠ [] := by
  induction cs with
  | nil => simp [pySplitLines]
  | cons c cs ih =>
    by_cases h : c = '\n'
    · simp [pySplitLines, h]
    · cases hm : pySplitLines cs with
      | nil => exact absurd hm ih
      | cons l ls => simp [pySplitLines, h, hm]

/-- No part produced by `pySplitLines` contains the separator. -/
theorem pySplitLines_no_newline (cs : List Char) :
    ∀ l ∈ pySplitLines cs, '\n' ∉ l := by
  induction cs with
  | nil => intro l hl; simp [pySplitLines] at hl; simp [hl]
  | cons c cs ih =>
    intro l hl
    by_cases h : c = '\n'
    · rw [pySplitLines, if_pos h] at hl
      rcases List.mem_cons.mp hl with rfl | hl
      · simp
      · exact ih l hl
    · rw [pySplitLines, if_neg h] at hl
      cases hm : pySplitLines cs with
      | nil => exact absurd hm (pySplitLines_ne_nil cs)
      | cons x xs =>
        rw [hm] at hl
        rcases List.mem_cons.mp hl with rfl | hl
        · intro hmem
          rcases List.mem_cons.mp hmem with he | hmem
          · exact h he.symm
          · exact ih x (hm ▸ List.mem_cons_self x xs) hmem
        · exact ih l (hm ▸ List.mem_cons_of_mem x hl)

/-- Splitting a separator-free list yields that single part. -/
theorem pySplitLines_single (l : List Char) (h : '\n' ∉ l) :
    pySplitLines l = [l] := by
  induction l with
  | nil => rfl
  | cons c cs ih =>
    have hc : c ≠ '\n' := fun he => h (he ▸ List.mem_cons_self c cs)
    have h' : '\n' ∉ cs := fun hm => h (List.mem_cons_of_mem c hm)
    rw [pySplitLines, if_neg hc, ih h']

/-- Splitting after a separator-free head segment peels that segment off. -/
theorem pySplitLines_append_newline (l rest : List Char) (h : '\n' ∉ l) :
    pySplitLines (l ++ '\n' :: rest) = l :: pySplitLines rest := by
  induction l with
  | nil => simp [pySplitLines]
  | cons c cs ih =>
    have hc : c ≠ '\n' := fun he => h (he ▸ List.mem_cons_self c cs)
    have h' : '\n' ∉ cs := fun hm => h (List.mem_cons_of_mem c hm)
    rw [List.cons_append, pySplitLines, if_neg hc, ih h']

/-- Splitting is a left inverse of joining for nonempty lists of
separator-free parts. -/
theorem pySplitLines_pyJoinLines (L : List (List Char)) (hne : L ≠ [])
    (h : ∀ l ∈ L, '\n' ∉ l) : pySplitLines (pyJoinLines L) = L := by
  induction L with
  | nil => exact absurd rfl hne
  | cons l ls ih =>
    cases ls with
    | nil => rw [pyJoinLines, pySplitLines_single l (h l (List.mem_cons_self l []))]
    | cons l2 ls2 =>
      rw [pyJoinLines, pySplitLines_append_newline l _ (h l (List.mem_cons_self l _)),
        ih (by simp) (fun x hx => h x (List.mem_cons_of_mem l hx))]

/-- Prepending the blockquote marker on the character list agrees with
`String` concatenation of `"> "`. -/
theorem quote_prefix_mk (l : List Char) :
    "> " ++ String.mk l = String.mk ('>' :: ' ' :: l) := rfl

/-! ## Claims C6, C7, C8, C10 -/

/-- C6 (amended): for every nonempty reasoning text,
`format_reasoning_as_quote` returns a string with exactly the same
`'\n'`-separated lines, each of them being `"> "` followed by the
corresponding original line, in the original order.  (The original claim,
quantified over *every* reasoning text, fails at the empty string: the
function short-circuits `""` to `""`, whose single line does not carry the
`"> "` marker.) -/
theorem format_reasoning_quote_lines (s : String) (h : s ≠ "") :
    pyLines (format_reasoning_as_quote s) = (pyLines s).map (fun l => "> " ++ l) := by
  rw [format_reasoning_as_quote, if_neg h]
  unfold pyLines
  rw [show (String.mk (pyJoinLines ((pySplitLines s.data).map
        (fun line => '>' :: ' ' :: line)))).data =
      pyJoinLines ((pySplitLines s.data).map (fun line => '>' :: ' ' :: line)) from rfl]
  rw [pySplitLines_pyJoinLines]
  · rw [List.map_map, List.map_map]
    exact List.map_congr_left (fun l _ => (quote_prefix_mk l).symm)
  · simp [pySplitLines_ne_nil s.data]
  · intro l hl
    rcases List.mem_map.mp hl with ⟨x, hx, rfl⟩
    have hx' := pySplitLines_no_newline s.data x hx
    intro hmem
    rcases List.mem_cons.mp hmem with he | hmem
    · exact absurd he (by decide)
    · rcases List.mem_cons.mp hmem with he | hmem
      · exact absurd he (by decide)
      · exact hx' hmem

/-- C6 witness: the amended theorem applied to `"a\nb"`. -/
theorem format_reasoning_quote_lines_witness :
    pyLines (format_reasoning_as_quote "a\nb") =
      (pyLines "a\nb").map (fun l => "> " ++ l) :=
  format_reasoning_quote_lines "a\nb" (by decide)

/-- C6 counterexample: at the empty reasoning text the claim as stated
fails — the output `""` consists of the single line `""`, which does not
begin with `"> "`, instead of the single line `"> "`. -/
theorem format_reasoning_empty_counterexample :
    pyLines (format_reasoning_as_quote "") ≠ (pyLines "").map (fun l => "> " ++ l) := by
  decide

/-- C7: every string passed to `log_generation` as input, output or
reasoning is recorded as its first 500 characters followed by `"..."`
when longer than 500 characters, and unmodified otherwise. -/
theorem log_generation_truncation (i o r m st sp : String) :
    (log_generation i o r m st sp).input =
      (if 500 < i.length then i.take 500 ++ "..." else i) ∧
    (log_generation i o r m st sp).output =
      (if 500 < o.length then o.take 500 ++ "..." else o) ∧
    (log_generation i o r m st sp).reasoning =
      (if 500 < r.length then r.take 500 ++ "..." else r) := by
  refine ⟨rfl, rfl, ?_⟩
  show truncateReasoning r = _
  by_cases hlen : 500 < r.length
  · have hne : r ≠ "" := by
      intro he
      rw [he] at hlen
      exact absurd hlen (by decide)
    rw [truncateReasoning, if_pos ⟨hne, hlen⟩, if_pos hlen]
  · rw [truncateReasoning, if_neg (fun hc => hlen hc.2), if_neg hlen]

/-- C8: starting a new conversation empties the message list, resets
`is_first_message`, and leaves the history list (and the stop flag)
exactly unchanged. -/
theorem start_new_conversation_frame (s : SessionState) :
    (start_new_conversation s).is_first_message = true ∧
    (start_new_conversation s).messages = [] ∧
    (start_new_conversation s).history = s.history ∧
    (start_new_conversation s).should_stop = s.should_stop :=
  ⟨rfl, rfl, rfl, rfl⟩

/-- C10: a chunk whose delta carries both a truthy reasoning increment
and a truthy content increment contributes only its reasoning increment;
the streaming loop continues with the answer accumulator untouched, so
that chunk's content never reaches the answer. -/
theorem stream_loop_reasoning_precedence (stopAt : Option Nat) (k : Nat)
    (c : Chunk) (rest : List Chunk) (raises : Bool) (reasoning answer : String)
    (hnostop : stopReads stopAt k = false)
    (hr : c.reasoning_content ≠ "") (hc : c.content ≠ "") :
    stream_loop stopAt k (c :: rest) raises reasoning answer =
      stream_loop stopAt (k + 1) rest raises
        (reasoning ++ c.reasoning_content) answer := by
  rw [stream_loop, hnostop]
  simp [hr]

/-- C10 witness: the theorem applied to a chunk carrying both deltas. -/
theorem stream_loop_reasoning_precedence_witness :
    stream_loop none 0 [⟨"r", "x"⟩] false "" "" =
      stream_loop none 1 [] false ("" ++ "r") "" :=
  stream_loop_reasoning_precedence none 0 ⟨"r", "x"⟩ [] false "" ""
    (by decide) (by decide) (by decide)

/-! ## Behaviour of the streaming loop when the stop action never fires -/

/-- With no stop action scheduled, the loop consumes the whole stream:
it returns the accumulators extended by the stream's reasoning and answer
text, one flag read per chunk, and propagates the stream's pending
exception flag. -/
theorem stream_loop_none (chunks : List Chunk) :
    ∀ (k : Nat) (raises : Bool) (r a : String),
    stream_loop none k chunks raises r a =
      { reasoning := r ++ accReasoning chunks
        answer := a ++ accAnswer chunks
        next_read := k + chunks.length
        stopped := false
        raised := raises } := by
  induction chunks with
  | nil =>
    intro k raises r a
    simp [stream_loop, accReasoning, accAnswer, String.append_empty]
  | cons c rest ih =>
    intro k raises r a
    rw [stream_loop, show stopReads none k = false from rfl]
    by_cases h1 : c.reasoning_content ≠ ""
    · rw [if_neg (by simp), if_pos h1, ih]
      simp [accReasoning, accAnswer, h1, String.append_assoc]
      omega
    · by_cases h2 : c.content ≠ ""
      · rw [if_neg (by simp), if_neg h1, if_pos h2, ih]
        simp only [not_not] at h1
        simp [accReasoning, accAnswer, h1, h2, String.append_assoc,
          String.append_empty, List.length_cons]
        omega
      · rw [if_neg (by simp), if_neg h1, if_neg h2, ih]
        simp only [not_not] at h1
        simp [accReasoning, accAnswer, h1, h2, String.append_empty, List.length_cons]
        omega

/-- Once a read of the stop flag returns `true`, every later read does. -/
theorem stopReads_mono {stopAt : Option Nat} {k k2 : Nat}
    (h : stopReads stopAt k = true) (hk : k ≤ k2) : stopReads stopAt k2 = true := by
  cases stopAt with
  | none => exact absurd h (by simp [stopReads])
  | some n =>
    simp only [stopReads, decide_eq_true_eq] at h ⊢
    omega

/-- A loop that exited via `break` saw no exception, and every stop-flag
read from its exit point on returns `true`. -/
theorem stream_loop_stopped (stopAt : Option Nat) (chunks : List Chunk) :
    ∀ (k : Nat) (raises : Bool) (r a : String),
    (stream_loop stopAt k chunks raises r a).stopped = true →
    (stream_loop stopAt k chunks raises r a).raised = false ∧
    stopReads stopAt (stream_loop stopAt k chunks raises r a).next_read = true := by
  induction chunks with
  | nil =>
    intro k raises r a h
    simp [stream_loop] at h
  | cons c rest ih =>
    intro k raises r a h
    by_cases hs : stopReads stopAt k = true
    · rw [stream_loop, hs]
      exact ⟨rfl, stopReads_mono hs (Nat.le_succ k)⟩
    · rw [stream_loop, if_neg hs] at h ⊢
      by_cases h1 : c.reasoning_content ≠ ""
      · rw [if_pos h1] at h ⊢
        exact ih (k + 1) raises _ a h
      · by_cases h2 : c.content ≠ ""
        · rw [if_neg h1, if_pos h2] at h ⊢
          exact ih (k + 1) raises r _ h
        · rw [if_neg h1, if_neg h2] at h ⊢
          exact ih (k + 1) raises r a h

/-- Full characterisation of an uncancelled, exception-free
`handle_first_message` run: user message and combined assistant message
appended, one history record appended, two logs emitted, no exception. -/
theorem handle_first_message_uncancelled (user_input : String) (s0 : SessionState)
    (env : Env) (hbtn : env.stopButton = false) (hstop : env.stopAt = none)
    (h1 : env.stream1.raises = false) (h2 : env.stream2.raises = false) :
    handle_first_message user_input s0 env =
      { state :=
          { messages := s0.messages ++
              [{ role := "user", content := user_input },
               { role := "assistant", content :=
                  "### 📊 利好分析\n\n" ++ accAnswer env.stream1.chunks ++
                  "\n\n### ⚠️ 风险提示\n\n" ++ accAnswer env.stream2.chunks }]
            is_first_message := false
            history := s0.history ++
              [{ timestamp := env.timestamp
                 news := user_input
                 impact_analysis := accAnswer env.stream1.chunks
                 impact_reasoning := accReasoning env.stream1.chunks
                 risk_analysis := accAnswer env.stream2.chunks
                 risk_reasoning := accReasoning env.stream2.chunks }]
            should_stop := false }
        logs :=
          [log_generation (format_prompt_a user_input)
             (accAnswer env.stream1.chunks) (accReasoning env.stream1.chunks)
             "deepseek-reasoner" "success" "impact_analysis",
           log_generation
             (format_prompt_a user_input ++ "\n\n" ++
               accAnswer env.stream1.chunks ++ "\n\n" ++ prompt_b)
             (accAnswer env.stream2.chunks) (accReasoning env.stream2.chunks)
             "deepseek-reasoner" "success" "risk_analysis"]
        raised := false } := by
  rw [handle_first_message, hbtn, hstop]
  simp only [stream_loop_none, String.empty_append, Bool.false_eq_true, if_false,
    h1, h2]
  rw [show stopReads none ((0 : Nat) + env.stream1.chunks.length) = false from rfl]
  simp

/-! ## Claims C1 and C5: the uncancelled first exchange -/

/-- C1 (amended): for any news text, a first exchange in a fresh session
that runs to completion with the stop flag never set emits exactly two
logs — `"impact_analysis"` then `"risk_analysis"` — and appends exactly
one `HistoryRecord`, whose `impact_analysis` and `risk_analysis` texts
are the accumulated answer texts of the first and second stream.  (The
original claim additionally asserted both texts are non-empty; nothing in
the code guarantees that — a stream yielding no content chunks commits an
empty analysis text, see the counterexample.) -/
theorem first_message_logs_and_history (user_input : String) (s0 : SessionState)
    (env : Env) (hm : s0.messages = []) (hh : s0.history = [])
    (hbtn : env.stopButton = false) (hstop : env.stopAt = none)
    (h1 : env.stream1.raises = false) (h2 : env.stream2.raises = false) :
    (handle_first_message user_input s0 env).raised = false ∧
    (handle_first_message user_input s0 env).logs.map LogRecord.step =
      ["impact_analysis", "risk_analysis"] ∧
    (handle_first_message user_input s0 env).state.history =
      [{ timestamp := env.timestamp
         news := user_input
         impact_analysis := accAnswer env.stream1.chunks
         impact_reasoning := accReasoning env.stream1.chunks
         risk_analysis := accAnswer env.stream2.chunks
         risk_reasoning := accReasoning env.stream2.chunks }] := by
  rw [handle_first_message_uncancelled user_input s0 env hbtn hstop h1 h2]
  simp [hh, log_generation]

/-- C1 witness: the amended theorem applied to a fresh session and two
one-chunk streams. -/
theorem first_message_logs_and_history_witness :
    (handle_first_message "n" ⟨[], true, [], false⟩
        ⟨false, none, ⟨[⟨"", "A"⟩], false⟩, ⟨[⟨"", "B"⟩], false⟩, "t"⟩).raised = false ∧
    (handle_first_message "n" ⟨[], true, [], false⟩
        ⟨false, none, ⟨[⟨"", "A"⟩], false⟩, ⟨[⟨"", "B"⟩], false⟩, "t"⟩).logs.map
      LogRecord.step = ["impact_analysis", "risk_analysis"] ∧
    (handle_first_message "n" ⟨[], true, [], false⟩
        ⟨false, none, ⟨[⟨"", "A"⟩], false⟩, ⟨[⟨"", "B"⟩], false⟩, "t"⟩).state.history =
      [{ timestamp := "t"
         news := "n"
         impact_analysis := accAnswer [⟨"", "A"⟩]
         impact_reasoning := accReasoning [⟨"", "A"⟩]
         risk_analysis := accAnswer [⟨"", "B"⟩]
         risk_reasoning := accReasoning [⟨"", "B"⟩] }] :=
  first_message_logs_and_history "n" ⟨[], true, [], false⟩
    ⟨false, none, ⟨[⟨"", "A"⟩], false⟩, ⟨[⟨"", "B"⟩], false⟩, "t"⟩
    rfl rfl rfl rfl rfl rfl

/-- C1 counterexample: with streams that yield no content chunks the
exchange still completes uncancelled with its two logs, but the single
appended `HistoryRecord` has an *empty* `impact_analysis` text, refuting
the claimed non-emptiness. -/
theorem first_message_empty_analysis_counterexample :
    (handle_first_message "n" ⟨[], true, [], false⟩
        ⟨false, none, ⟨[], false⟩, ⟨[], false⟩, "t"⟩).raised = false ∧
    (handle_first_message "n" ⟨[], true, [], false⟩
        ⟨false, none, ⟨[], false⟩, ⟨[], false⟩, "t"⟩).state.should_stop = false ∧
    (handle_first_message "n" ⟨[], true, [], false⟩
        ⟨false, none, ⟨[], false⟩, ⟨[], false⟩, "t"⟩).logs.map LogRecord.step =
      ["impact_analysis", "risk_analysis"] ∧
    (handle_first_message "n" ⟨[], true, [], false⟩
        ⟨false, none, ⟨[], false⟩, ⟨[], false⟩, "t"⟩).state.history.map
      HistoryRecord.impact_analysis = [""] :=
  ⟨rfl, rfl, rfl, rfl⟩

/-- C5: in every uncancelled, exception-free first exchange, the single
assistant message appended to the session message list has content
exactly `"### 📊 利好分析\n\n" ++ answer1 ++ "\n\n### ⚠️ 风险提示\n\n"
++ answer2`, where `answer1` and `answer2` are the accumulated answers of
the two streams. -/
theorem assistant_message_concatenation (user_input : String) (s0 : SessionState)
    (env : Env) (hbtn : env.stopButton = false) (hstop : env.stopAt = none)
    (h1 : env.stream1.raises = false) (h2 : env.stream2.raises = false) :
    (handle_first_message user_input s0 env).state.messages =
      s0.messages ++
        [{ role := "user", content := user_input },
         { role := "assistant", content :=
            "### 📊 利好分析\n\n" ++ accAnswer env.stream1.chunks ++
            "\n\n### ⚠️ 风险提示\n\n" ++ accAnswer env.stream2.chunks }] := by
  rw [handle_first_message_uncancelled user_input s0 env hbtn hstop h1 h2]

/-- C5 witness: the theorem applied to concrete streams; the assistant
message is the fully evaluated concatenation. -/
theorem assistant_message_concatenation_witness :
    (handle_first_message "n" ⟨[], true, [], false⟩
        ⟨false, none, ⟨[⟨"R1", ""⟩, ⟨"", "A"⟩], false⟩, ⟨[⟨"", "B"⟩], false⟩, "t"⟩).state.messages =
      [] ++
        [{ role := "user", content := "n" },
         { role := "assistant", content :=
            "### 📊 利好分析\n\n" ++ accAnswer [⟨"R1", ""⟩, ⟨"", "A"⟩] ++
            "\n\n### ⚠️ 风险提示\n\n" ++ accAnswer [⟨"", "B"⟩] }] :=
  assistant_message_concatenation "n" ⟨[], true, [], false⟩
    ⟨false, none, ⟨[⟨"R1", ""⟩, ⟨"", "A"⟩], false⟩, ⟨[⟨"", "B"⟩], false⟩, "t"⟩
    rfl rfl rfl rfl

/-! ## Claims C2, C3, C4, C9: cancelled and failing first exchanges -/

/-- C2 (amended): when the stop flag is observed `true` at or before the
re-check that guards the second request (that covers a pressed stop
button and any stop observed during or right after the first stream),
the exchange appends no assistant `Message` and no `HistoryRecord`; the
user `Message` appended unconditionally at the start of the exchange
does remain.  (The original claim — zero appended `Message`s, and the
all-or-nothing guarantee for *any* stop before the commit — fails: the
user message is always appended, and a stop first observed during the
second stream does not prevent the commit, see the counterexample.) -/
theorem stop_before_second_request_frame (user_input : String) (s0 : SessionState)
    (env : Env)
    (h : env.stopButton = true ∨
      stopReads env.stopAt
        (stream_loop env.stopAt 0 env.stream1.chunks env.stream1.raises "" "").next_read
        = true) :
    (handle_first_message user_input s0 env).state.messages =
      s0.messages ++ [{ role := "user", content := user_input }] ∧
    (handle_first_message user_input s0 env).state.history = s0.history := by
  by_cases hbtn : env.stopButton = true
  · rw [handle_first_message, hbtn]
    exact ⟨rfl, rfl⟩
  · rcases h with h | h
    · exact absurd h hbtn
    · rw [handle_first_message, if_neg hbtn]
      by_cases hr : (stream_loop env.stopAt 0 env.stream1.chunks
          env.stream1.raises "" "").raised = true
      · rw [if_pos hr]
        exact ⟨rfl, rfl⟩
      · rw [if_neg hr, if_pos h]
        exact ⟨rfl, rfl⟩

/-- C2 witness: the amended theorem applied to a run whose stop button
reads as pressed. -/
theorem stop_before_second_request_frame_witness :
    (handle_first_message "n" ⟨[], true, [], false⟩
        ⟨true, none, ⟨[], false⟩, ⟨[], false⟩, "t"⟩).state.messages =
      [] ++ [{ role := "user", content := "n" }] ∧
    (handle_first_message "n" ⟨[], true, [], false⟩
        ⟨true, none, ⟨[], false⟩, ⟨[], false⟩, "t"⟩).state.history = [] :=
  stop_before_second_request_frame "n" ⟨[], true, [], false⟩
    ⟨true, none, ⟨[], false⟩, ⟨[], false⟩, "t"⟩ (Or.inl rfl)

/-- C2 counterexample: reads of the stop flag are numbered 0 (first
stream's only chunk), 1 (the guard before the second request), 2 (second
stream's only chunk); with the stop arriving at read 2 the stop flag is
observed `true` during the second stream — before the commit — yet the
exchange still appends the assistant `Message` (two messages total, not
zero) and the `HistoryRecord` (one record, not zero), with the partial
(empty) risk answer. -/
theorem stop_during_second_stream_commits_counterexample :
    (handle_first_message "n" ⟨[], true, [], false⟩
        ⟨false, some 2, ⟨[⟨"", "A"⟩], false⟩, ⟨[⟨"", "B"⟩], false⟩, "t"⟩).state.should_stop
      = true ∧
    (handle_first_message "n" ⟨[], true, [], false⟩
        ⟨false, some 2, ⟨[⟨"", "A"⟩], false⟩, ⟨[⟨"", "B"⟩], false⟩, "t"⟩).state.messages.length
      = 2 ∧
    (handle_first_message "n" ⟨[], true, [], false⟩
        ⟨false, some 2, ⟨[⟨"", "A"⟩], false⟩, ⟨[⟨"", "B"⟩], false⟩, "t"⟩).state.history.map
      HistoryRecord.risk_analysis = [""] :=
  ⟨rfl, rfl, rfl⟩

/-- C3 (amended): an exception raised during either completion request
propagates out of `handle_first_message` to the UI shell, and the run
leaves the history list unchanged and appends no assistant `Message`;
the user `Message` appended at the start of the exchange does remain in
the message list.  (The original claim — message list unchanged — fails:
the user message is appended before the first request, see the
counterexample.) -/
theorem request_exception_frame (user_input : String) (s0 : SessionState)
    (env : Env) (hbtn : env.stopButton = false) :
    (((stream_loop env.stopAt 0 env.stream1.chunks env.stream1.raises "" "").raised = true ∨
      (stopReads env.stopAt
          (stream_loop env.stopAt 0 env.stream1.chunks env.stream1.raises "" "").next_read
          = false ∧
        (stream_loop env.stopAt
            ((stream_loop env.stopAt 0 env.stream1.chunks env.stream1.raises "" "").next_read + 1)
            env.stream2.chunks env.stream2.raises "" "").raised = true)) →
      (handle_first_message user_input s0 env).raised = true) ∧
    ((handle_first_message user_input s0 env).raised = true →
      (handle_first_message user_input s0 env).state.history = s0.history ∧
      (handle_first_message user_input s0 env).state.messages =
        s0.messages ++ [{ role := "user", content := user_input }]) := by
  rw [handle_first_message, if_neg (by simp [hbtn])]
  by_cases hr1 : (stream_loop env.stopAt 0 env.stream1.chunks
      env.stream1.raises "" "").raised = true
  · rw [if_pos hr1]
    exact ⟨fun _ => rfl, fun _ => ⟨rfl, rfl⟩⟩
  · rw [if_neg hr1]
    by_cases hs : stopReads env.stopAt
        (stream_loop env.stopAt 0 env.stream1.chunks env.stream1.raises "" "").next_read = true
    · rw [if_pos hs]
      exact ⟨fun _ => rfl, fun _ => ⟨rfl, rfl⟩⟩
    · rw [if_neg hs]
      by_cases hr2 : (stream_loop env.stopAt
          ((stream_loop env.stopAt 0 env.stream1.chunks env.stream1.raises "" "").next_read + 1)
          env.stream2.chunks env.stream2.raises "" "").raised = true
      · rw [if_pos hr2]
        exact ⟨fun _ => rfl, fun _ => ⟨rfl, rfl⟩⟩
      · rw [if_neg hr2]
        refine ⟨fun hc => ?_, fun hc => absurd hc (by simp)⟩
        rcases hc with hc | hc
        · exact absurd hc hr1
        · exact absurd hc.2 hr2

/-- C3 witness: a first request that raises at creation time propagates,
and the state keeps only the user message. -/
theorem request_exception_frame_witness :
    (handle_first_message "n" ⟨[], true, [], false⟩
        ⟨false, none, ⟨[], true⟩, ⟨[], false⟩, "t"⟩).raised = true ∧
    (handle_first_message "n" ⟨[], true, [], false⟩
        ⟨false, none, ⟨[], true⟩, ⟨[], false⟩, "t"⟩).state.history = [] :=
  ⟨(request_exception_frame "n" ⟨[], true, [], false⟩
      ⟨false, none, ⟨[], true⟩, ⟨[], false⟩, "t"⟩ rfl).1 (Or.inl rfl),
   ((request_exception_frame "n" ⟨[], true, [], false⟩
      ⟨false, none, ⟨[], true⟩, ⟨[], false⟩, "t"⟩ rfl).2
     ((request_exception_frame "n" ⟨[], true, [], false⟩
        ⟨false, none, ⟨[], true⟩, ⟨[], false⟩, "t"⟩ rfl).1 (Or.inl rfl))).1⟩

/-- C3 counterexample: the first request raises in a fresh session; the
exception propagates, but the message list *was* updated by the
exchange — it now holds the user message, refuting "neither the session
message list nor the history list is updated". -/
theorem request_exception_message_counterexample :
    (handle_first_message "n" ⟨[], true, [], false⟩
        ⟨false, none, ⟨[], true⟩, ⟨[], false⟩, "t"⟩).raised = true ∧
    (handle_first_message "n" ⟨[], true, [], false⟩
        ⟨false, none, ⟨[], true⟩, ⟨[], false⟩, "t"⟩).state.messages ≠ [] :=
  ⟨rfl, by decide⟩

/-- C4 (amended): a run whose first streaming loop exits via the stop
flag emits exactly one log record — step `"impact_analysis"`, status
`"success"`, carrying whatever partial output had been accumulated —
*regardless* of whether the stream had produced any output yet, because
the first `log_generation` call is unconditional; zero log records are
emitted only on the stop-button early return, before the first request.
(The original claim — zero log records when the stream had not started
producing output — fails, see the counterexample.) -/
theorem cancelled_first_stream_logs (user_input : String) (s0 : SessionState)
    (env : Env) :
    (env.stopButton = true → (handle_first_message user_input s0 env).logs = []) ∧
    (env.stopButton = false →
      (stream_loop env.stopAt 0 env.stream1.chunks env.stream1.raises "" "").stopped
        = true →
      (handle_first_message user_input s0 env).logs =
        [log_generation (format_prompt_a user_input)
          (stream_loop env.stopAt 0 env.stream1.chunks env.stream1.raises "" "").answer
          (stream_loop env.stopAt 0 env.stream1.chunks env.stream1.raises "" "").reasoning
          "deepseek-reasoner" "success" "impact_analysis"]) := by
  constructor
  · intro hbtn
    rw [handle_first_message, hbtn]
    rfl
  · intro hbtn hstopd
    obtain ⟨hraised, hread⟩ :=
      stream_loop_stopped env.stopAt env.stream1.chunks 0 env.stream1.raises "" "" hstopd
    rw [handle_first_message, if_neg (by simp [hbtn]), if_neg (by simp [hraised]),
      if_pos hread]

/-- C4 witness: stop observed at the first chunk of the first stream —
one `"impact_analysis"` log with the (here empty) partial output. -/
theorem cancelled_first_stream_logs_witness :
    (handle_first_message "n" ⟨[], true, [], false⟩
        ⟨false, some 0, ⟨[⟨"", "A"⟩], false⟩, ⟨[⟨"", "B"⟩], false⟩, "t"⟩).logs =
      [log_generation (format_prompt_a "n")
        (stream_loop (some 0) 0 [⟨"", "A"⟩] false "" "").answer
        (stream_loop (some 0) 0 [⟨"", "A"⟩] false "" "").reasoning
        "deepseek-reasoner" "success" "impact_analysis"] :=
  (cancelled_first_stream_logs "n" ⟨[], true, [], false⟩
    ⟨false, some 0, ⟨[⟨"", "A"⟩], false⟩, ⟨[⟨"", "B"⟩], false⟩, "t"⟩).2 rfl rfl

/-- C4 counterexample: the stop is observed at the very first chunk of
the first stream, before any output was produced (the logged output is
empty) — the claim demands zero log records here, but the code emits
exactly one `"impact_analysis"` record with status `"success"`. -/
theorem cancelled_no_output_still_logs_counterexample :
    (handle_first_message "n" ⟨[], true, [], false⟩
        ⟨false, some 0, ⟨[⟨"", "A"⟩], false⟩, ⟨[⟨"", "B"⟩], false⟩, "t"⟩).state.should_stop
      = true ∧
    (handle_first_message "n" ⟨[], true, [], false⟩
        ⟨false, some 0, ⟨[⟨"", "A"⟩], false⟩, ⟨[⟨"", "B"⟩], false⟩, "t"⟩).state.history = [] ∧
    (handle_first_message "n" ⟨[], true, [], false⟩
        ⟨false, some 0, ⟨[⟨"", "A"⟩], false⟩, ⟨[⟨"", "B"⟩], false⟩, "t"⟩).logs.map
      (fun l => (l.step, l.status, l.output)) = [("impact_analysis", "success", "")] :=
  ⟨rfl, rfl, rfl⟩

/-- C9 (amended): `handle_first_message` sets `is_first_message` to
`false` in every invocation that passes the stop-button check and in
which neither completion request propagates an exception — in particular
in runs cancelled via the stop flag during streaming (line 236 runs
before the unbound-variable error of line 237), so a cancelled first
exchange is followed by regular-message handling.  (The original "every
invocation" fails: the stop-button early return — and a request
exception — skips line 236 and leaves the flag unchanged, see the
counterexample.) -/
theorem first_message_flag_flip (user_input : String) (s0 : SessionState)
    (env : Env) :
    ((env.stopButton = false ∧
      (stream_loop env.stopAt 0 env.stream1.chunks env.stream1.raises "" "").raised = false ∧
      (stopReads env.stopAt
          (stream_loop env.stopAt 0 env.stream1.chunks env.stream1.raises "" "").next_read
          = true ∨
        (stream_loop env.stopAt
            ((stream_loop env.stopAt 0 env.stream1.chunks env.stream1.raises "" "").next_read + 1)
            env.stream2.chunks env.stream2.raises "" "").raised = false)) →
      (handle_first_message user_input s0 env).state.is_first_message = false) ∧
    (env.stopButton = true →
      (handle_first_message user_input s0 env).state.is_first_message =
        s0.is_first_message) := by
  constructor
  · rintro ⟨hbtn, hr1, h⟩
    rw [handle_first_message, if_neg (by simp [hbtn]), if_neg (by simp [hr1])]
    by_cases hs : stopReads env.stopAt
        (stream_loop env.stopAt 0 env.stream1.chunks env.stream1.raises "" "").next_read = true
    · rw [if_pos hs]
    · rw [if_neg hs]
      rcases h with h | h
      · exact absurd h hs
      · rw [if_neg (by simp [h])]
  · intro hbtn
    rw [handle_first_message, hbtn]
    rfl

/-- C9 witness: a run cancelled at the first chunk of the first stream
still flips `is_first_message` to `false`. -/
theorem first_message_flag_flip_witness :
    (handle_first_message "n" ⟨[], true, [], false⟩
        ⟨false, some 0, ⟨[⟨"", "A"⟩], false⟩, ⟨[⟨"", "B"⟩], false⟩, "t"⟩).state.is_first_message
      = false :=
  (first_message_flag_flip "n" ⟨[], true, [], false⟩
    ⟨false, some 0, ⟨[⟨"", "A"⟩], false⟩, ⟨[⟨"", "B"⟩], false⟩, "t"⟩).1
    ⟨rfl, rfl, Or.inl rfl⟩

/-- C9 counterexample: the stop-button early return (`app.py` line 142)
ends the invocation before line 236, so `is_first_message` is *not* set
to `false`. -/
theorem stop_button_keeps_first_flag_counterexample :
    (handle_first_message "n" ⟨[], true, [], false⟩
        ⟨true, none, ⟨[], false⟩, ⟨[], false⟩, "t"⟩).state.is_first_message ≠ false := by
  decide
